import Mathlib

/-!
Verification of the Casting Agency API (Flask app in `app.py`, persistence
in `models.py`) against its specification.

The repository's `app.py` imports `AuthError` and `requires_auth` from an
`auth.auth` module whose source is not part of the repository snapshot; the
authorization core (token extractor, token verifier, permission enforcer,
authorization guard, error taxonomy) is therefore modelled from the spec,
as noted on each such definition.  Everything else (route table, handlers,
error handlers, data model) is translated from `app.py` and `models.py`.
-/

namespace CastingAgency

/-! ## Authorization error taxonomy

Modelled from the spec: the `auth.auth` module is not in the repository
snapshot; §7 of the spec gives the kinds and the status-code mapping
(InsufficientScope → forbidden 403, everything else → unauthorized 401). -/

inductive AuthErrorKind
  | MissingHeader
  | MalformedHeader
  | MalformedToken
  | UnsupportedAlgorithm
  | MissingKeyId
  | UnknownKey
  | KeySetUnavailable
  | InvalidSignature
  | MalformedClaims
  | InvalidIssuer
  | InvalidAudience
  | TokenExpired
  | InsufficientScope
  deriving DecidableEq, Repr, Fintype

/-- Modelled from the spec: the transport status code of each failure kind,
per the §7 table — `InsufficientScope` is forbidden, every other kind is
unauthorized. -/
def statusCode : AuthErrorKind → Nat
  | .InsufficientScope => 403
  | _ => 401

/-- Modelled from the spec: each failure kind carries its own description to
the boundary ("no failure is ever silently swallowed; each carries its
specific kind"). -/
def description : AuthErrorKind → String
  | .MissingHeader => "authorization header is expected"
  | .MalformedHeader => "authorization header must be a bearer token"
  | .MalformedToken => "token is structurally invalid"
  | .UnsupportedAlgorithm => "token declares a disallowed signing algorithm"
  | .MissingKeyId => "token header lacks a key identifier"
  | .UnknownKey => "unable to find the appropriate key"
  | .KeySetUnavailable => "key set provider is unreachable"
  | .InvalidSignature => "token signature is invalid"
  | .MalformedClaims => "token payload is not valid structured data"
  | .InvalidIssuer => "token issuer is incorrect"
  | .InvalidAudience => "token audience is incorrect"
  | .TokenExpired => "token is expired"
  | .InsufficientScope => "permission not found"

/-- The `AuthError` exception value as consumed by `app.py`:
`error.status_code` and `error.error['description']`. -/
structure AuthError where
  status_code : Nat
  description : String
  deriving DecidableEq, Repr

/-- Modelled from the spec: the `AuthError` raised for a given failure
kind, carrying its status code and kind-specific description. -/
def authErrorOf (k : AuthErrorKind) : AuthError :=
  { status_code := statusCode k, description := description k }

/-! ## Token extractor

Modelled from the spec §4.2: requires an `Authorization` header whose value
is exactly two space-separated parts, the first case-sensitively equal to
`Bearer`; fails `MissingHeader` if absent, `MalformedHeader` if it has zero
or more than two parts, the scheme is not `Bearer`, or the second part is
empty. -/

abbrev Headers := List (String × String)

def lookupAuth (hs : Headers) : Option String :=
  (hs.find? (fun p => p.1 = "Authorization")).map (fun p => p.2)

/-- Split a character list at every occurrence of `sep`, keeping empty
pieces (the accumulator holds the current piece reversed). -/
def splitOnChar (sep : Char) : List Char → List Char → List String
  | [], cur => [String.mk cur.reverse]
  | c :: rest, cur =>
    if c = sep then String.mk cur.reverse :: splitOnChar sep rest []
    else splitOnChar sep rest (c :: cur)

/-- Split a header value into its space-separated parts (runs of spaces
yield no empty parts, matching whitespace splitting). -/
def splitParts (v : String) : List String :=
  (splitOnChar ' ' v.toList []).filter (fun s => s ≠ "")

/-- Modelled from the spec: `extract(requestHeaders) → TokenString`. -/
def extract (hs : Headers) : Except AuthErrorKind String :=
  match lookupAuth hs with
  | none => .error .MissingHeader
  | some v =>
    match splitParts v with
    | [scheme, tok] =>
      if scheme = "Bearer" ∧ tok ≠ "" then .ok tok else .error .MalformedHeader
    | _ => .error .MalformedHeader

/-- A header value is well formed when it is exactly `Bearer` followed by
one non-empty token part. -/
def bearerOk (v : String) : Bool :=
  match splitParts v with
  | [scheme, tok] => scheme == "Bearer" && tok != ""
  | _ => false

/-- The token part of a well-formed header value. -/
def bearerToken (v : String) : String :=
  match splitParts v with
  | [_, tok] => tok
  | _ => ""

/-! ## Token verifier

Modelled from the spec §4.3: the ten verification steps, each a hard gate.
The token is represented by the artifacts of its decoding (segments, decoded
header, decoded payload, and the deterministic signature check against a
key); base64 and RSA arithmetic are abstracted into those artifacts. -/

structure SigningKey where
  kid : String
  material : Nat
  deriving DecidableEq, Repr

structure TokenHeader where
  alg : Option String
  kid : Option String
  deriving DecidableEq, Repr

structure ClaimSet where
  iss : String
  aud : List String
  exp : Int
  sub : String
  permissions : Option (List String)
  deriving DecidableEq, Repr

structure DecodedToken where
  segments : List String
  header : Option TokenHeader
  claims : Option ClaimSet
  sigValid : SigningKey → Bool

structure VerifyEnv where
  keySet : Option (List SigningKey)
  expectedIssuer : String
  expectedAudience : String
  now : Int
  clockSkew : Int

/-- Step 1: exactly three non-empty segments. -/
def wellSegmented (t : DecodedToken) : Bool :=
  t.segments.length == 3 && t.segments.all (fun s => s != "")

/-- Modelled from the spec: `verify(tokenString) → VerifiedClaimSet`,
steps 1–10 of §4.3 in order. -/
def verify (env : VerifyEnv) (t : DecodedToken) : Except AuthErrorKind ClaimSet :=
  if ¬ wellSegmented t then .error .MalformedToken
  else
    match t.header with
    | none => .error .MalformedToken
    | some h =>
      if h.alg ≠ some "RS256" then .error .UnsupportedAlgorithm
      else
        match h.kid with
        | none => .error .MissingKeyId
        | some k =>
          match env.keySet with
          | none => .error .KeySetUnavailable
          | some ks =>
            match ks.find? (fun key => key.kid = k) with
            | none => .error .UnknownKey
            | some key =>
              if ¬ t.sigValid key then .error .InvalidSignature
              else
                match t.claims with
                | none => .error .MalformedClaims
                | some c =>
                  if c.iss ≠ env.expectedIssuer then .error .InvalidIssuer
                  else if ¬ env.expectedAudience ∈ c.aud then .error .InvalidAudience
                  else if ¬ (env.now - env.clockSkew < c.exp) then .error .TokenExpired
                  else .ok c

/-! ## Permission enforcer

Modelled from the spec §4.4: reads the permissions claim (defaulting to the
empty set if absent), succeeds iff the required permission is a member,
fails `InsufficientScope` otherwise; pure. -/

def requirePermission (c : ClaimSet) (required : String) : Except AuthErrorKind Unit :=
  if required ∈ c.permissions.getD [] then .ok () else .error .InsufficientScope

/-! ## Authorization guard

Modelled from the spec §4.5: `extract` → `verify` → `requirePermission` →
invoke the operation with the claim set; any failure short-circuits. -/

structure GuardEnv where
  venv : VerifyEnv
  decode : String → DecodedToken

/-- The three authorization steps run in order, returning the claim set on
success or the first failing step's kind. -/
def pipeline (ge : GuardEnv) (hs : Headers) (required : String) :
    Except AuthErrorKind ClaimSet :=
  match extract hs with
  | .error e => .error e
  | .ok tok =>
    match verify ge.venv (ge.decode tok) with
    | .error e => .error e
    | .ok c =>
      match requirePermission c required with
      | .error e => .error e
      | .ok _ => .ok c

/-! ## Persistence data model (`models.py`)

`Movie(id, title ≤ 180 chars, release_date)` and
`Actor(id, name ≤ 180 chars, age, gender ≤ 20 chars)`; ids come from the
primary-key sequence.  A value too long for its column makes the commit
fail (mapped to 422 by the handlers). -/

structure DateRec where
  year : Nat
  month : Nat
  day : Nat
  deriving DecidableEq, Repr

structure ActorRec where
  id : Nat
  name : String
  age : Int
  gender : String
  deriving DecidableEq, Repr

structure MovieRec where
  id : Nat
  title : String
  release_date : DateRec
  deriving DecidableEq, Repr

structure DB where
  actors : List ActorRec
  movies : List MovieRec
  nextActorId : Nat
  nextMovieId : Nat
  deriving DecidableEq, Repr

/-- Column-size constraints from `models.py` (`String(180)`, `String(20)`). -/
def actorRowOk (a : ActorRec) : Bool :=
  a.name.length ≤ 180 && a.gender.length ≤ 20

def movieRowOk (m : MovieRec) : Bool :=
  m.title.length ≤ 180

/-- `Actor.query.filter(Actor.id == id).one_or_none()`. -/
def DB.findActor (s : DB) (i : Nat) : Option ActorRec :=
  s.actors.find? (fun a => a.id = i)

def DB.findMovie (s : DB) (i : Nat) : Option MovieRec :=
  s.movies.find? (fun m => m.id = i)

def DB.replaceActor (s : DB) (a : ActorRec) : DB :=
  { s with actors := s.actors.map (fun b => if b.id = a.id then a else b) }

def DB.replaceMovie (s : DB) (m : MovieRec) : DB :=
  { s with movies := s.movies.map (fun n => if n.id = m.id then m else n) }

def DB.removeActor (s : DB) (i : Nat) : DB :=
  { s with actors := s.actors.filter (fun a => a.id ≠ i) }

def DB.removeMovie (s : DB) (i : Nat) : DB :=
  { s with movies := s.movies.filter (fun m => m.id ≠ i) }

/-! ## JSON request bodies

`request.get_json()` yields `None` or a JSON object; handlers read fields
with `body.get(key, None)` and test Python truthiness (`None`, `0`, and
`""` are falsy). -/

inductive JVal
  | jnull
  | jstr (s : String)
  | jint (n : Int)
  deriving DecidableEq, Repr

/-- Python truthiness of a JSON field value. -/
def truthy : JVal → Bool
  | .jnull => false
  | .jstr s => s ≠ ""
  | .jint n => n ≠ 0

abbrev Body := List (String × JVal)

/-- `body.get(key, None)`. -/
def Body.get (b : Body) (k : String) : JVal :=
  match b.find? (fun p => p.1 = k) with
  | some p => p.2
  | none => .jnull

/-- `if not body:` — false for a missing JSON document and for an empty
object. -/
def bodyTruthy : Option Body → Bool
  | none => false
  | some b => ! b.isEmpty

/-! ## Date parsing

`datetime.strptime(release_date, '%Y-%m-%d').date()`: `%Y` matches exactly
four digits, `%m` one or two digits in 1..12, `%d` one or two digits in
1..31, the whole string must be consumed, and the resulting calendar date
must be valid (year ≥ 1, day within the month) or `ValueError` is raised. -/

def allDigits (s : String) : Bool :=
  s ≠ "" && s.toList.all (fun c => c.isDigit)

/-- Numeric value of a digit string. -/
def digitsVal (s : String) : Nat :=
  s.toList.foldl (fun n c => n * 10 + (c.toNat - 48)) 0

def isLeapYear (y : Nat) : Bool :=
  (y % 4 == 0 && y % 100 != 0) || y % 400 == 0

def daysInMonth (y m : Nat) : Nat :=
  if m = 2 then (if isLeapYear y then 29 else 28)
  else if m = 4 ∨ m = 6 ∨ m = 9 ∨ m = 11 then 30
  else 31

/-- `%m`: one or two digits (value range checked by the caller). -/
def twoDigitField (s : String) : Option Nat :=
  if allDigits s && s.length ≤ 2 then some (digitsVal s) else none

/-- `%d`: one or two digits, or a space followed by one nonzero digit. -/
def dayField (s : String) : Option Nat :=
  if allDigits s && s.length ≤ 2 then some (digitsVal s)
  else
    match s.toList with
    | [' ', c] => if c.isDigit && c ≠ '0' then some (c.toNat - 48) else none
    | _ => none

/-- `strptime` with format `'%Y-%m-%d'` followed by `.date()`; `none`
models `ValueError` (either no regex match or an out-of-range calendar
date). -/
def parseDate (s : String) : Option DateRec :=
  match splitOnChar '-' s.toList [] with
  | [ys, ms, ds] =>
    if allDigits ys && ys.length == 4 then
      match twoDigitField ms, dayField ds with
      | some m, some d =>
        let y := digitsVal ys
        if 1 ≤ y && 1 ≤ m && m ≤ 12 && 1 ≤ d && d ≤ daysInMonth y m then
          some ⟨y, m, d⟩
        else none
      | _, _ => none
    else none
  | _ => none

/-! ## HTTP responses

Success bodies from the handlers in `app.py`; error bodies from the
registered error handlers (400 "bad request", 404 "resource not found",
422 "unprocessable", and the `AuthError` handler). -/

inductive Payload
  | empty
  | actors (l : List ActorRec)
  | actor (a : ActorRec)
  | movies (l : List MovieRec)
  | movie (m : MovieRec)
  | deleted (i : Nat)
  deriving DecidableEq, Repr

structure Resp where
  status : Nat
  success : Bool
  error : Option Nat
  message : String
  payload : Payload
  deriving DecidableEq, Repr

def ok200 (p : Payload) : Resp :=
  { status := 200, success := true, error := none, message := "", payload := p }

/-- The `@app.errorhandler(400/404/422/500)` bodies from `app.py`. -/
def errorResp (code : Nat) : Resp :=
  { status := code, success := false, error := some code,
    message :=
      if code = 400 then "bad request"
      else if code = 404 then "resource not found"
      else if code = 422 then "unprocessable"
      else "internal server error",
    payload := .empty }

/-- The `@app.errorhandler(AuthError)` handler from `app.py`: body
`success = False`, `error = error.status_code`,
`message = error.error['description']`, returned with that status code. -/
def auth_error (e : AuthError) : Resp :=
  { status := e.status_code, success := false, error := some e.status_code,
    message := e.description, payload := .empty }

/-- The externally visible response for an authorization failure kind. -/
def authErrorResponse (k : AuthErrorKind) : Resp :=
  auth_error (authErrorOf k)

/-! ## Route handlers (`app.py`)

Each handler takes the decoded `payload` threaded in by the guard (unused
by every handler, as in the source) and acts on the database state.
Exceptions raised inside the `try` blocks are modelled as the status code
they are mapped to (`ValueError` → 400 in the movie handlers, any other
exception → 422). -/

def insertById {α : Type} (key : α → Nat) (a : α) : List α → List α
  | [] => [a]
  | b :: t => if key a ≤ key b then a :: b :: t else b :: insertById key a t

/-- `query.order_by(id)`. -/
def sortById {α : Type} (key : α → Nat) : List α → List α
  | [] => []
  | a :: t => insertById key a (sortById key t)

/-- `GET /actors` (`get_actors` in `app.py`). -/
def get_actors (payload : ClaimSet) (s : DB) : DB × Resp :=
  let actors := sortById (fun a => a.id) s.actors
  if actors.isEmpty then (s, ok200 (.actors []))
  else (s, ok200 (.actors actors))

/-- `POST /actors` (`create_actor` in `app.py`). -/
def create_actor (payload : ClaimSet) (body : Option Body) (s : DB) : DB × Resp :=
  if ¬ bodyTruthy body then (s, errorResp 400)
  else
    let b := body.getD []
    let name := b.get "name"
    let age := b.get "age"
    let gender := b.get "gender"
    if ¬ (truthy name && truthy age && truthy gender) then (s, errorResp 400)
    else
      match name, age, gender with
      | .jstr n, .jint a, .jstr g =>
        let row : ActorRec := ⟨s.nextActorId, n, a, g⟩
        if actorRowOk row then
          ({ s with actors := s.actors ++ [row], nextActorId := s.nextActorId + 1 },
           ok200 (.actor row))
        else (s, errorResp 422)
      | _, _, _ => (s, errorResp 422)

/-- One conditional field assignment from the `try` block of
`update_actor`; the `Bool` records that a value of the wrong type was
assigned, which makes the later commit fail. -/
def assignActorName : ActorRec × Bool → JVal → ActorRec × Bool
  | (a, bad), v =>
    if truthy v then
      match v with
      | .jstr s => ({ a with name := s }, bad)
      | _ => (a, true)
    else (a, bad)

def assignActorAge : ActorRec × Bool → JVal → ActorRec × Bool
  | (a, bad), v =>
    if truthy v then
      match v with
      | .jint n => ({ a with age := n }, bad)
      | _ => (a, true)
    else (a, bad)

def assignActorGender : ActorRec × Bool → JVal → ActorRec × Bool
  | (a, bad), v =>
    if truthy v then
      match v with
      | .jstr s => ({ a with gender := s }, bad)
      | _ => (a, true)
    else (a, bad)

/-- `actor.update()` — the commit fails (422) on a wrong-typed assignment
or a column-size violation. -/
def commitActor (s : DB) (u : ActorRec × Bool) : DB × Resp :=
  if u.2 || ¬ actorRowOk u.1 then (s, errorResp 422)
  else (s.replaceActor u.1, ok200 (.actor u.1))

/-- `PATCH /actors/<id>` (`update_actor` in `app.py`). -/
def update_actor (payload : ClaimSet) (actor_id : Nat) (body : Option Body)
    (s : DB) : DB × Resp :=
  match s.findActor actor_id with
  | none => (s, errorResp 404)
  | some a =>
    if ¬ bodyTruthy body then (s, errorResp 400)
    else
      let b := body.getD []
      let u := assignActorGender
        (assignActorAge (assignActorName (a, false) (b.get "name")) (b.get "age"))
        (b.get "gender")
      commitActor s u

/-- `DELETE /actors/<id>` (`delete_actor` in `app.py`). -/
def delete_actor (payload : ClaimSet) (actor_id : Nat) (s : DB) : DB × Resp :=
  match s.findActor actor_id with
  | none => (s, errorResp 404)
  | some _ => (s.removeActor actor_id, ok200 (.deleted actor_id))

/-- `GET /movies` (`get_movies` in `app.py`). -/
def get_movies (payload : ClaimSet) (s : DB) : DB × Resp :=
  let movies := sortById (fun m => m.id) s.movies
  if movies.isEmpty then (s, ok200 (.movies []))
  else (s, ok200 (.movies movies))

/-- `POST /movies` (`create_movie` in `app.py`): `strptime` on a
non-matching date string raises `ValueError` → 400; `strptime` on a
non-string raises `TypeError` → 422; a failing insert → 422. -/
def create_movie (payload : ClaimSet) (body : Option Body) (s : DB) : DB × Resp :=
  if ¬ bodyTruthy body then (s, errorResp 400)
  else
    let b := body.getD []
    let title := b.get "title"
    let rd := b.get "release_date"
    if ¬ (truthy title && truthy rd) then (s, errorResp 400)
    else
      match rd with
      | .jstr ds =>
        match parseDate ds with
        | none => (s, errorResp 400)
        | some d =>
          match title with
          | .jstr t =>
            let row : MovieRec := ⟨s.nextMovieId, t, d⟩
            if movieRowOk row then
              ({ s with movies := s.movies ++ [row], nextMovieId := s.nextMovieId + 1 },
               ok200 (.movie row))
            else (s, errorResp 422)
          | _ => (s, errorResp 422)
      | _ => (s, errorResp 422)

/-- `movie.update()` — commit, as for actors. -/
def commitMovie (s : DB) (u : MovieRec × Bool) : DB × Resp :=
  if u.2 || ¬ movieRowOk u.1 then (s, errorResp 422)
  else (s.replaceMovie u.1, ok200 (.movie u.1))

/-- The conditional title assignment from the `try` block of
`update_movie`. -/
def assignMovieTitle : MovieRec × Bool → JVal → MovieRec × Bool
  | (m, bad), v =>
    if truthy v then
      match v with
      | .jstr t => ({ m with title := t }, bad)
      | _ => (m, true)
    else (m, bad)

/-- `PATCH /movies/<id>` (`update_movie` in `app.py`): the title is
assigned first (never raises), then a truthy `release_date` goes through
`strptime` (`ValueError` → 400, non-string → 422), then the commit. -/
def update_movie (payload : ClaimSet) (movie_id : Nat) (body : Option Body)
    (s : DB) : DB × Resp :=
  match s.findMovie movie_id with
  | none => (s, errorResp 404)
  | some m =>
    if ¬ bodyTruthy body then (s, errorResp 400)
    else
      let b := body.getD []
      let tv := b.get "title"
      let rv := b.get "release_date"
      let u : MovieRec × Bool := assignMovieTitle (m, false) tv
      if truthy rv then
        match rv with
        | .jstr ds =>
          match parseDate ds with
          | none => (s, errorResp 400)
          | some d => commitMovie s ({ u.1 with release_date := d }, u.2)
        | _ => (s, errorResp 422)
      else commitMovie s u

/-- `DELETE /movies/<id>` (`delete_movie` in `app.py`). -/
def delete_movie (payload : ClaimSet) (movie_id : Nat) (s : DB) : DB × Resp :=
  match s.findMovie movie_id with
  | none => (s, errorResp 404)
  | some _ => (s.removeMovie movie_id, ok200 (.deleted movie_id))

/-! ## Route table and dispatch (`app.py`)

The eight protected routes with the permission string each declares in its
`@requires_auth(...)` decorator. -/

inductive Resource
  | actors
  | movies
  deriving DecidableEq, Repr, Fintype

inductive Verb
  | GET
  | POST
  | PATCH
  | DELETE
  deriving DecidableEq, Repr, Fintype

/-- The permission literal of each route's `@requires_auth` decorator. -/
def requiredPermission : Resource → Verb → String
  | .actors, .GET => "get:actors"
  | .actors, .POST => "post:actors"
  | .actors, .PATCH => "patch:actors"
  | .actors, .DELETE => "delete:actors"
  | .movies, .GET => "get:movies"
  | .movies, .POST => "post:movies"
  | .movies, .PATCH => "patch:movies"
  | .movies, .DELETE => "delete:movies"

def resourceName : Resource → String
  | .actors => "actors"
  | .movies => "movies"

def verbName : Verb → String
  | .GET => "get"
  | .POST => "post"
  | .PATCH => "patch"
  | .DELETE => "delete"

structure Request where
  resource : Resource
  verb : Verb
  rid : Nat
  headers : Headers
  body : Option Body

/-- The handler bound to each protected route. -/
def handlerFor (req : Request) : ClaimSet → DB → DB × Resp :=
  fun payload s =>
    match req.resource, req.verb with
    | .actors, .GET => get_actors payload s
    | .actors, .POST => create_actor payload req.body s
    | .actors, .PATCH => update_actor payload req.rid req.body s
    | .actors, .DELETE => delete_actor payload req.rid s
    | .movies, .GET => get_movies payload s
    | .movies, .POST => create_movie payload req.body s
    | .movies, .PATCH => update_movie payload req.rid req.body s
    | .movies, .DELETE => delete_movie payload req.rid s

/-- Modelled from the spec: the `requires_auth` decorator of the missing
`auth.auth` module — run the pipeline, short-circuit to the `AuthError`
response on failure, invoke the wrapped operation with the claim set on
success. -/
def requires_auth {σ : Type} (required : String) (ge : GuardEnv) (hs : Headers)
    (f : ClaimSet → σ → σ × Resp) (s : σ) : σ × Resp :=
  match pipeline ge hs required with
  | .error e => (s, authErrorResponse e)
  | .ok c => f c s

/-- One protected request through the app: guard first, handler only on
authorization success. -/
def handleRequest (ge : GuardEnv) (req : Request) (s : DB) : DB × Resp :=
  requires_auth (requiredPermission req.resource req.verb) ge req.headers
    (handlerFor req) s

/-! ## Derived notions used by the theorems -/

/-- A field value that, when truthy, is a JSON string (so the Python
assignment and commit are well typed). -/
def wellTypedStr (v : JVal) : Prop :=
  truthy v = true → ∃ x, v = JVal.jstr x

/-- A field value that, when truthy, is a JSON integer. -/
def wellTypedInt (v : JVal) : Prop :=
  truthy v = true → ∃ n, v = JVal.jint n

/-- The value a string column holds after one conditional PATCH
assignment: overwritten by a truthy string, kept otherwise. -/
def expectedStr (cur : String) : JVal → String
  | .jstr x => if x = "" then cur else x
  | _ => cur

/-- The value an integer column holds after one conditional PATCH
assignment: overwritten by a truthy integer, kept otherwise. -/
def expectedInt (cur : Int) : JVal → Int
  | .jint n => if n = 0 then cur else n
  | _ => cur

/-- The actor record a PATCH body should produce: exactly the truthy
fields overwritten. -/
def patchedActor (a : ActorRec) (b : Body) : ActorRec :=
  { a with
    name := expectedStr a.name (b.get "name")
    age := expectedInt a.age (b.get "age")
    gender := expectedStr a.gender (b.get "gender") }

lemma assignActorName_eq (a : ActorRec) (bad : Bool) (v : JVal)
    (h : wellTypedStr v) :
    assignActorName (a, bad) v = ({ a with name := expectedStr a.name v }, bad) := by
  cases v with
  | jnull => simp [assignActorName, truthy, expectedStr]
  | jstr x =>
    by_cases hx : x = "" <;> simp [assignActorName, truthy, expectedStr, hx]
  | jint n =>
    by_cases hn : n = 0
    · simp [assignActorName, truthy, expectedStr, hn]
    · exfalso
      rcases h (by simp [truthy, hn]) with ⟨x, hx⟩
      exact JVal.noConfusion hx

lemma assignActorAge_eq (a : ActorRec) (bad : Bool) (v : JVal)
    (h : wellTypedInt v) :
    assignActorAge (a, bad) v = ({ a with age := expectedInt a.age v }, bad) := by
  cases v with
  | jnull => simp [assignActorAge, truthy, expectedInt]
  | jint n =>
    by_cases hn : n = 0 <;> simp [assignActorAge, truthy, expectedInt, hn]
  | jstr x =>
    by_cases hx : x = ""
    · simp [assignActorAge, truthy, expectedInt, hx]
    · exfalso
      rcases h (by simp [truthy, hx]) with ⟨n, hn⟩
      exact JVal.noConfusion hn

lemma assignActorGender_eq (a : ActorRec) (bad : Bool) (v : JVal)
    (h : wellTypedStr v) :
    assignActorGender (a, bad) v = ({ a with gender := expectedStr a.gender v }, bad) := by
  cases v with
  | jnull => simp [assignActorGender, truthy, expectedStr]
  | jstr x =>
    by_cases hx : x = "" <;> simp [assignActorGender, truthy, expectedStr, hx]
  | jint n =>
    by_cases hn : n = 0
    · simp [assignActorGender, truthy, expectedStr, hn]
    · exfalso
      rcases h (by simp [truthy, hn]) with ⟨x, hx⟩
      exact JVal.noConfusion hx

/-! ## Claim theorems -/

/-- C2: every authorization failure is visible as a JSON body
`success = false`, `error = <status>`, `message = <string>`, where the
status is 403 exactly for `InsufficientScope` and 401 for every other
kind, and no two kinds are collapsed (their descriptions differ). -/
theorem auth_failure_status_mapping (k : AuthErrorKind) :
    authErrorResponse k =
      { status := statusCode k, success := false, error := some (statusCode k),
        message := description k, payload := .empty }
    ∧ (statusCode k = 403 ↔ k = .InsufficientScope)
    ∧ (k ≠ .InsufficientScope → statusCode k = 401)
    ∧ ∀ k2 : AuthErrorKind, description k = description k2 → k = k2 := by
  refine ⟨rfl, ?_, ?_, ?_⟩
  · cases k <;> simp [statusCode]
  · cases k <;> simp [statusCode]
  · intro k2
    cases k <;> cases k2 <;> simp [description]

theorem auth_failure_status_mapping_witness :
    statusCode .InsufficientScope = 403
    ∧ (authErrorResponse .MissingHeader).status = 401
    ∧ (authErrorResponse .MissingHeader).success = false := by
  refine ⟨(auth_failure_status_mapping .InsufficientScope).2.1.mpr rfl, ?_, ?_⟩
  · rw [(auth_failure_status_mapping .MissingHeader).1]
    exact (auth_failure_status_mapping .MissingHeader).2.2.1 (by decide)
  · rw [(auth_failure_status_mapping .MissingHeader).1]

/-- C4: `requirePermission` succeeds iff the required permission is a
member of the permissions claim, an absent claim behaving as the empty
set; otherwise it fails with `InsufficientScope`; and it is pure — equal
inputs give equal results. -/
theorem requirePermission_correct (c : ClaimSet) (p : String) :
    (requirePermission c p = .ok () ↔ p ∈ c.permissions.getD [])
    ∧ (p ∉ c.permissions.getD [] → requirePermission c p = .error .InsufficientScope)
    ∧ requirePermission { c with permissions := none } p
        = requirePermission { c with permissions := some [] } p
    ∧ ∀ c2 p2, c = c2 → p = p2 → requirePermission c p = requirePermission c2 p2 := by
  refine ⟨?_, ?_, rfl, ?_⟩
  · by_cases h : p ∈ c.permissions.getD [] <;> simp [requirePermission, h]
  · intro h
    simp [requirePermission, h]
  · intro c2 p2 hc hp
    rw [hc, hp]

theorem requirePermission_correct_witness :
    requirePermission ⟨"iss", ["aud"], 10, "sub", some ["get:actors"]⟩ "get:actors" = .ok ()
    ∧ requirePermission ⟨"iss", ["aud"], 10, "sub", some ["get:actors"]⟩ "delete:actors"
        = .error .InsufficientScope := by
  constructor
  · exact (requirePermission_correct ⟨"iss", ["aud"], 10, "sub", some ["get:actors"]⟩
      "get:actors").1.mpr (by decide)
  · exact (requirePermission_correct ⟨"iss", ["aud"], 10, "sub", some ["get:actors"]⟩
      "delete:actors").2.1 (by decide)

/-- C3: a token whose header names a key identifier absent from the
current key set fails with `UnknownKey`, never `InvalidSignature` — key
resolution is fully evaluated before the signature is checked (the
signature-check field of the token is never consulted). -/
theorem verify_unknown_key (env : VerifyEnv) (t : DecodedToken) (h : TokenHeader)
    (k : String) (ks : List SigningKey)
    (h1 : wellSegmented t = true)
    (h2 : t.header = some h)
    (h3 : h.alg = some "RS256")
    (h4 : h.kid = some k)
    (h5 : env.keySet = some ks)
    (h6 : ∀ key ∈ ks, key.kid ≠ k) :
    verify env t = .error .UnknownKey
    ∧ verify env t ≠ .error .InvalidSignature := by
  have hfind : ks.find? (fun key => key.kid = k) = none := by
    rw [List.find?_eq_none]
    intro x hx
    simp [h6 x hx]
  have hv : verify env t = .error .UnknownKey := by
    simp [verify, h1, h2, h3, h4, h5, hfind]
  refine ⟨hv, ?_⟩
  rw [hv]
  intro hcon
  exact AuthErrorKind.noConfusion (Except.error.inj hcon)

/-- Fixtures for the guard theorem witnesses: one published key, a claim
set carrying `get:actors`, a well-formed token signed under that key. -/
def keyEx : SigningKey := ⟨"k1", 0⟩

def claimsEx : ClaimSet := ⟨"iss", ["aud"], 101, "sub", some ["get:actors"]⟩

def venvEx : VerifyEnv := ⟨some [keyEx], "iss", "aud", 100, 0⟩

def tokenUnknownEx : DecodedToken :=
  ⟨["h", "p", "s"], some ⟨some "RS256", some "k2"⟩, some claimsEx, fun _ => true⟩

theorem verify_unknown_key_witness :
    verify venvEx tokenUnknownEx = .error .UnknownKey :=
  (verify_unknown_key venvEx tokenUnknownEx ⟨some "RS256", some "k2"⟩ "k2" [keyEx]
    rfl rfl rfl rfl rfl (by decide)).1

/-- C6: for a token passing every earlier gate, verification succeeds iff
the expiry timestamp is strictly after the verification time minus the
clock-skew tolerance, fails `TokenExpired` otherwise, and succeeds at the
boundary plus one unit of time. -/
theorem verify_expiry_boundary (env : VerifyEnv) (t : DecodedToken) (h : TokenHeader)
    (k : String) (key : SigningKey) (ks : List SigningKey) (c : ClaimSet)
    (h1 : wellSegmented t = true)
    (h2 : t.header = some h)
    (h3 : h.alg = some "RS256")
    (h4 : h.kid = some k)
    (h5 : env.keySet = some ks)
    (h6 : ks.find? (fun key2 => key2.kid = k) = some key)
    (h7 : t.sigValid key = true)
    (h8 : t.claims = some c)
    (h9 : c.iss = env.expectedIssuer)
    (h10 : env.expectedAudience ∈ c.aud) :
    (verify env t = .ok c ↔ env.now - env.clockSkew < c.exp)
    ∧ (c.exp ≤ env.now - env.clockSkew → verify env t = .error .TokenExpired)
    ∧ (c.exp = env.now - env.clockSkew + 1 → verify env t = .ok c) := by
  by_cases hexp : env.now - env.clockSkew < c.exp
  · have hv : verify env t = .ok c := by
      simp [verify, h1, h2, h3, h4, h5, h6, h7, h8, h9, h10, hexp]
    exact ⟨⟨fun _ => hexp, fun _ => hv⟩, fun hle => absurd hexp (by omega), fun _ => hv⟩
  · have hv : verify env t = .error .TokenExpired := by
      simp [verify, h1, h2, h3, h4, h5, h6, h7, h8, h9, h10, hexp]
    refine ⟨⟨fun heq => ?_, fun hlt => absurd hlt hexp⟩, fun _ => hv, fun hb => ?_⟩
    · rw [hv] at heq
      exact Except.noConfusion heq
    · exact absurd (by omega : env.now - env.clockSkew < c.exp) hexp

def tokenEx : DecodedToken :=
  ⟨["h", "p", "s"], some ⟨some "RS256", some "k1"⟩, some claimsEx, fun _ => true⟩

theorem verify_expiry_boundary_witness :
    verify venvEx tokenEx = .ok claimsEx :=
  (verify_expiry_boundary venvEx tokenEx ⟨some "RS256", some "k1"⟩ "k1" keyEx [keyEx]
    claimsEx rfl rfl rfl rfl rfl (by decide) rfl rfl rfl (by decide)).2.2 (by decide)

/-- C5: any failure of extraction, verification, or permission enforcement
short-circuits the guard with that step's error response; the wrapped
operation is never invoked, so the protected state is returned unchanged
and the outcome does not depend on the operation at all. -/
theorem guard_short_circuit {σ : Type} (ge : GuardEnv) (hs : Headers) (perm : String)
    (e : AuthErrorKind) (op : ClaimSet → σ → σ × Resp) (s : σ)
    (hfail : pipeline ge hs perm = .error e) :
    requires_auth perm ge hs op s = (s, authErrorResponse e)
    ∧ (requires_auth perm ge hs op s).1 = s
    ∧ ∀ op2 : ClaimSet → σ → σ × Resp,
        requires_auth perm ge hs op s = requires_auth perm ge hs op2 s := by
  have h1 : requires_auth perm ge hs op s = (s, authErrorResponse e) := by
    simp [requires_auth, hfail]
  refine ⟨h1, by rw [h1], fun op2 => ?_⟩
  rw [h1]
  simp [requires_auth, hfail]

def geEx : GuardEnv := ⟨venvEx, fun _ => tokenEx⟩

theorem guard_short_circuit_witness :
    requires_auth "get:actors" geEx [] (fun _ (n : Nat) => (n + 1, ok200 .empty)) 0
      = (0, authErrorResponse .MissingHeader) :=
  (guard_short_circuit geEx [] "get:actors" .MissingHeader
    (fun _ (n : Nat) => (n + 1, ok200 .empty)) 0 rfl).1

lemma extract_some (hs : Headers) (v : String) (hv : lookupAuth hs = some v) :
    extract hs = if bearerOk v then .ok (bearerToken v) else .error .MalformedHeader := by
  unfold extract bearerOk bearerToken
  rw [hv]
  rcases hsp : splitParts v with _ | ⟨a, _ | ⟨b, _ | ⟨c, t⟩⟩⟩
  · simp [hsp]
  · simp [hsp]
  · simp only [hsp]
    by_cases ha : a = "Bearer" <;> by_cases hb : b = "" <;> simp [ha, hb]
  · simp [hsp]

/-- C7: extraction fails `MissingHeader` exactly when the Authorization
header is absent, fails `MalformedHeader` exactly when the value is not
`Bearer` followed by one non-empty part, and a request with no
Authorization header is rejected by the app with status 401. -/
theorem extract_header_spec (hs : Headers) :
    (extract hs = .error .MissingHeader ↔ lookupAuth hs = none)
    ∧ (∀ v, lookupAuth hs = some v → bearerOk v = false →
        extract hs = .error .MalformedHeader)
    ∧ (∀ v, lookupAuth hs = some v → bearerOk v = true →
        extract hs = .ok (bearerToken v))
    ∧ (lookupAuth hs = none → ∀ (ge : GuardEnv) (req : Request) (s : DB),
        req.headers = hs →
        handleRequest ge req s = (s, authErrorResponse .MissingHeader)
        ∧ (authErrorResponse .MissingHeader).status = 401) := by
  refine ⟨?_, ?_, ?_, ?_⟩
  · cases hv : lookupAuth hs with
    | none => simp [extract, hv]
    | some v =>
      rw [extract_some hs v hv]
      by_cases hb : bearerOk v <;> simp [hb]
  · intro v hv hb
    rw [extract_some hs v hv, hb]
    simp
  · intro v hv hb
    rw [extract_some hs v hv, hb]
    simp
  · intro hnone ge req s hreq
    have hext : extract req.headers = .error .MissingHeader := by
      rw [hreq]
      simp [extract, hnone]
    have hpipe : pipeline ge req.headers
        (requiredPermission req.resource req.verb) = .error .MissingHeader := by
      simp [pipeline, hext]
    exact ⟨by simp [handleRequest, requires_auth, hpipe], rfl⟩

def dbEx : DB := ⟨[], [], 1, 1⟩

theorem extract_header_spec_witness :
    handleRequest geEx ⟨.actors, .GET, 0, [("Content-Type", "application/json")], none⟩ dbEx
      = (dbEx, authErrorResponse .MissingHeader)
    ∧ (authErrorResponse .MissingHeader).status = 401 :=
  (extract_header_spec [("Content-Type", "application/json")]).2.2.2 rfl geEx
    ⟨.actors, .GET, 0, [("Content-Type", "application/json")], none⟩ dbEx rfl

/-- C1: each of the eight protected routes declares exactly the
resource-and-verb permission string of its `@requires_auth` decorator,
distinct pairs declare distinct permissions, and whenever the bearer-token
pipeline fails the handler never runs — the response is the authorization
error and the database is unchanged. -/
theorem route_permissions_guarded :
    (∀ r v2, requiredPermission r v2 = verbName v2 ++ ":" ++ resourceName r)
    ∧ (∀ p q : Resource × Verb,
        requiredPermission p.1 p.2 = requiredPermission q.1 q.2 → p = q)
    ∧ (∀ (ge : GuardEnv) (req : Request) (s : DB) (e : AuthErrorKind),
        pipeline ge req.headers (requiredPermission req.resource req.verb) = .error e →
        handleRequest ge req s = (s, authErrorResponse e)) := by
  refine ⟨?_, ?_, ?_⟩
  · intro r v2
    cases r <;> cases v2 <;> rfl
  · decide
  · intro ge req s e hfail
    simp [handleRequest, requires_auth, hfail]

theorem route_permissions_guarded_witness :
    requiredPermission .movies .DELETE = "delete:movies"
    ∧ handleRequest geEx ⟨.movies, .DELETE, 3, [("Authorization", "Token abc")], none⟩ dbEx
        = (dbEx, authErrorResponse .MalformedHeader) :=
  ⟨route_permissions_guarded.1 .movies .DELETE,
   route_permissions_guarded.2.2 geEx
     ⟨.movies, .DELETE, 3, [("Authorization", "Token abc")], none⟩ dbEx
     .MalformedHeader rfl⟩

/-- The movie record a PATCH body should produce on its title column. -/
def patchedMovieTitle (m : MovieRec) (b : Body) : MovieRec :=
  { m with title := expectedStr m.title (b.get "title") }

lemma assignMovieTitle_eq (m : MovieRec) (bad : Bool) (v : JVal)
    (h : wellTypedStr v) :
    assignMovieTitle (m, bad) v = ({ m with title := expectedStr m.title v }, bad) := by
  cases v with
  | jnull => simp [assignMovieTitle, truthy, expectedStr]
  | jstr x =>
    by_cases hx : x = "" <;> simp [assignMovieTitle, truthy, expectedStr, hx]
  | jint n =>
    by_cases hn : n = 0
    · simp [assignMovieTitle, truthy, expectedStr, hn]
    · exfalso
      rcases h (by simp [truthy, hn]) with ⟨x, hx⟩
      exact JVal.noConfusion hx

lemma expectedStr_of_falsy (cur : String) (v : JVal) (h : truthy v = false) :
    expectedStr cur v = cur := by
  cases v <;> simp_all [truthy, expectedStr]

lemma expectedInt_of_falsy (cur : Int) (v : JVal) (h : truthy v = false) :
    expectedInt cur v = cur := by
  cases v <;> simp_all [truthy, expectedInt]

/-- C8: a PATCH on an existing actor or movie writes exactly the
truthy-valued fields of the body and silently keeps every absent or falsy
field, answering 200 with the resulting record; in particular a body
setting `age` to 0 leaves the age unchanged. -/
theorem patch_writes_only_truthy_fields (payload : ClaimSet) (s : DB) (i : Nat)
    (b : Body) :
    (∀ a, s.findActor i = some a → b.isEmpty = false →
      wellTypedStr (b.get "name") → wellTypedInt (b.get "age") →
      wellTypedStr (b.get "gender") → actorRowOk (patchedActor a b) = true →
      update_actor payload i (some b) s
        = (s.replaceActor (patchedActor a b), ok200 (.actor (patchedActor a b)))
      ∧ (truthy (b.get "age") = false → (patchedActor a b).age = a.age)
      ∧ (truthy (b.get "name") = false → (patchedActor a b).name = a.name)
      ∧ (truthy (b.get "gender") = false → (patchedActor a b).gender = a.gender))
    ∧ (∀ m, s.findMovie i = some m → b.isEmpty = false →
      wellTypedStr (b.get "title") → movieRowOk (patchedMovieTitle m b) = true →
      (truthy (b.get "release_date") = false →
        update_movie payload i (some b) s
          = (s.replaceMovie (patchedMovieTitle m b),
             ok200 (.movie (patchedMovieTitle m b)))
        ∧ (patchedMovieTitle m b).release_date = m.release_date)
      ∧ (∀ ds d, b.get "release_date" = .jstr ds → ds ≠ "" →
          parseDate ds = some d →
          update_movie payload i (some b) s
            = (s.replaceMovie { patchedMovieTitle m b with release_date := d },
               ok200 (.movie { patchedMovieTitle m b with release_date := d })))) := by
  constructor
  · intro a hfind hne hn ha hg hok
    have hchain : assignActorGender
        (assignActorAge (assignActorName (a, false) (b.get "name")) (b.get "age"))
        (b.get "gender") = (patchedActor a b, false) := by
      rw [assignActorName_eq a false _ hn, assignActorAge_eq _ false _ ha,
        assignActorGender_eq _ false _ hg]
      rfl
    refine ⟨?_, ?_, ?_, ?_⟩
    · simp only [update_actor, hfind, bodyTruthy, hne, Option.getD_some]
      simp [hchain, commitActor, hok]
    · intro hf
      simp [patchedActor, expectedInt_of_falsy _ _ hf]
    · intro hf
      simp [patchedActor, expectedStr_of_falsy _ _ hf]
    · intro hf
      simp [patchedActor, expectedStr_of_falsy _ _ hf]
  · intro m hfind hne ht hok
    have htitle : assignMovieTitle (m, false) (b.get "title")
        = (patchedMovieTitle m b, false) := by
      rw [assignMovieTitle_eq m false _ ht]
      rfl
    constructor
    · intro hf
      constructor
      · simp only [update_movie, hfind, bodyTruthy, hne, Option.getD_some]
        simp [htitle, hf, commitMovie, hok]
      · rfl
    · intro ds d hds hdne hparse
      simp only [update_movie, hfind, bodyTruthy, hne, Option.getD_some]
      simp only [htitle, hds]
      have hokd : movieRowOk { patchedMovieTitle m b with release_date := d } = true := hok
      simp [truthy, hdne, hparse, commitMovie, hokd]

def actorEx : ActorRec := ⟨1, "Amy", 30, "F"⟩

def dbActorEx : DB := ⟨[actorEx], [], 2, 1⟩

def patchBodyEx : Body := [("age", JVal.jint 0)]

theorem patch_writes_only_truthy_fields_witness :
    update_actor claimsEx 1 (some patchBodyEx) dbActorEx
      = (dbActorEx, ok200 (.actor actorEx))
    ∧ actorEx.age = 30 := by
  have h := (patch_writes_only_truthy_fields claimsEx dbActorEx 1 patchBodyEx).1
    actorEx rfl rfl
    (fun hcon => absurd hcon (by decide))
    (fun _ => ⟨0, rfl⟩)
    (fun hcon => absurd hcon (by decide))
    rfl
  exact ⟨h.1, rfl⟩

/-- C9: `POST /actors` answers 400 and inserts nothing whenever the body
is missing or any of name, age, gender is absent or falsy (so age 0 or an
empty name is rejected), and inserts a row exactly when all three are
truthy and the insert commits. -/
theorem post_actor_requires_truthy_fields (payload : ClaimSet) (s : DB)
    (body : Option Body) :
    (bodyTruthy body = false → create_actor payload body s = (s, errorResp 400))
    ∧ (∀ b, body = some b →
        (truthy (b.get "name") && truthy (b.get "age")
          && truthy (b.get "gender")) = false →
        create_actor payload body s = (s, errorResp 400))
    ∧ (∀ b n ag g, body = some b →
        b.get "name" = .jstr n → b.get "age" = .jint ag → b.get "gender" = .jstr g →
        n ≠ "" → ag ≠ 0 → g ≠ "" →
        actorRowOk ⟨s.nextActorId, n, ag, g⟩ = true →
        create_actor payload body s =
          ({ s with actors := s.actors ++ [⟨s.nextActorId, n, ag, g⟩], nextActorId := s.nextActorId + 1 },
           ok200 (.actor ⟨s.nextActorId, n, ag, g⟩))) := by
  refine ⟨?_, ?_, ?_⟩
  · intro h
    simp [create_actor, h]
  · intro b hb hfalse
    subst hb
    by_cases hbt : bodyTruthy (some b) = true
    · simp [create_actor, hbt, hfalse]
    · simp [create_actor, hbt]
  · intro b n ag g hb hn hag hg hn2 hag2 hg2 hok
    subst hb
    have hbt : bodyTruthy (some b) = true := by
      cases b with
      | nil => simp [Body.get] at hn
      | cons hd tl => rfl
    simp [create_actor, hbt, hn, hag, hg, truthy, hn2, hag2, hg2, hok]

theorem post_actor_requires_truthy_fields_witness :
    create_actor claimsEx
      (some [("name", JVal.jstr "John"), ("age", JVal.jint 0), ("gender", JVal.jstr "M")])
      dbEx = (dbEx, errorResp 400)
    ∧ create_actor claimsEx
        (some [("name", JVal.jstr "John"), ("age", JVal.jint 41), ("gender", JVal.jstr "M")])
        dbEx
        = ({ dbEx with actors := [⟨1, "John", 41, "M"⟩], nextActorId := 2 },
           ok200 (.actor ⟨1, "John", 41, "M"⟩)) := by
  constructor
  · exact (post_actor_requires_truthy_fields claimsEx dbEx
      (some [("name", JVal.jstr "John"), ("age", JVal.jint 0), ("gender", JVal.jstr "M")])).2.1
      _ rfl (by decide)
  · exact (post_actor_requires_truthy_fields claimsEx dbEx
      (some [("name", JVal.jstr "John"), ("age", JVal.jint 41), ("gender", JVal.jstr "M")])).2.2
      _ "John" 41 "M" rfl rfl rfl rfl (by decide) (by decide) (by decide) rfl

/-- C10: `POST /movies` parses `release_date` with the exact
`'%Y-%m-%d'` format; a non-matching date string yields 400, other
insertion failures yield 422 (a distinct response), and no row is created
in either failure case; a matching date inserts the movie. -/
theorem post_movie_date_format (payload : ClaimSet) (s : DB) (b : Body)
    (t ds : String)
    (hne : b.isEmpty = false)
    (ht : b.get "title" = .jstr t) (htt : t ≠ "")
    (hr : b.get "release_date" = .jstr ds) (hds : ds ≠ "") :
    (parseDate ds = none → create_movie payload (some b) s = (s, errorResp 400))
    ∧ (∀ d, parseDate ds = some d → movieRowOk ⟨s.nextMovieId, t, d⟩ = false →
        create_movie payload (some b) s = (s, errorResp 422))
    ∧ (∀ d, parseDate ds = some d → movieRowOk ⟨s.nextMovieId, t, d⟩ = true →
        create_movie payload (some b) s =
          ({ s with movies := s.movies ++ [⟨s.nextMovieId, t, d⟩], nextMovieId := s.nextMovieId + 1 },
           ok200 (.movie ⟨s.nextMovieId, t, d⟩)))
    ∧ errorResp 400 ≠ errorResp 422 := by
  have hbt : bodyTruthy (some b) = true := by
    cases b with
    | nil => simp [Body.get] at ht
    | cons hd tl => rfl
  refine ⟨?_, ?_, ?_, ?_⟩
  · intro hparse
    simp [create_movie, hbt, ht, hr, truthy, htt, hds, hparse]
  · intro d hparse hok
    simp [create_movie, hbt, ht, hr, truthy, htt, hds, hparse, hok]
  · intro d hparse hok
    simp [create_movie, hbt, ht, hr, truthy, htt, hds, hparse, hok]
  · intro hcon
    exact absurd (congrArg Resp.status hcon) (by decide)

def movieBodyBad : Body :=
  [("title", JVal.jstr "Forrest Gump"), ("release_date", JVal.jstr "1994/07/06")]

def movieBodyGood : Body :=
  [("title", JVal.jstr "Forrest Gump"), ("release_date", JVal.jstr "1994-07-06")]

theorem post_movie_date_format_witness :
    create_movie claimsEx (some movieBodyBad) dbEx = (dbEx, errorResp 400)
    ∧ create_movie claimsEx (some movieBodyGood) dbEx
        = ({ dbEx with movies := [⟨1, "Forrest Gump", ⟨1994, 7, 6⟩⟩], nextMovieId := 2 },
           ok200 (.movie ⟨1, "Forrest Gump", ⟨1994, 7, 6⟩⟩)) := by
  constructor
  · exact (post_movie_date_format claimsEx dbEx movieBodyBad "Forrest Gump" "1994/07/06"
      rfl rfl (by decide) rfl (by decide)).1 rfl
  · exact (post_movie_date_format claimsEx dbEx movieBodyGood "Forrest Gump" "1994-07-06"
      rfl rfl (by decide) rfl (by decide)).2.2.1 ⟨1994, 7, 6⟩ rfl rfl

end CastingAgency
